import Mathlib

/-!
Verification of the SQL Semantic Validation Engine (src/dev2) against its
natural-language specification.

The engine (sql_parser.py, hallucination_detector.py, join_path_verifier.py,
models.py) is embedded shallowly below.  The external parsing library
(sqlglot) is modelled abstractly as an oracle producing structural trees and
possibly raising exceptions; the Schema Model (SchemaSnapshot, owned by a
component of the repository that is not part of the analysed sources) is
modelled from the specification.  Python floats are modelled as exact
rationals; Python sets used only for membership are modelled as lists with
membership queries; Python dict lookup is exact-match association lookup.
-/

/-- A single quote character as a string, used in the error-message formats
of hallucination_detector.py. -/
def squote : String := "\x27"

/-- Python str.lower(), embedded structurally over the character list (the
identifiers handled by the engine are ASCII). -/
def plower (s : String) : String := ⟨s.data.map Char.toLower⟩

/-- Python str.upper(), embedded structurally over the character list. -/
def pupper (s : String) : String := ⟨s.data.map Char.toUpper⟩

/-- Python str.strip(): drop leading and trailing whitespace. -/
def pstrip (s : String) : String :=
  ⟨(((s.data.dropWhile Char.isWhitespace).reverse.dropWhile Char.isWhitespace).reverse)⟩

/-- Helper of psplitDot: accumulate the current segment (reversed) while
scanning the characters. -/
def psplitDotAux : List Char → List Char → List String
  | [], acc => [⟨acc.reverse⟩]
  | c :: cs, acc =>
    if c = '.' then ⟨acc.reverse⟩ :: psplitDotAux cs [] else psplitDotAux cs (c :: acc)

/-- Python s.split("."): the dot-separated segments (never empty as a list). -/
def psplitDot (s : String) : List String := psplitDotAux s.data []

/-- Python "." in s (for the single-character separator this is character
membership). -/
def pcontainsDot (s : String) : Bool := s.data.any (fun c => c == '.')

/-- Column of the Schema Model.  Modelled from the spec: models.py-side
SchemaSnapshot is external to src/dev2; spec section 3 gives a Column a name,
a declared type and an optional foreign-key reference encoded "table.column"
(absent is modelled as none, matching Python falsiness of None). -/
structure SchemaColumn where
  name : String
  dtype : String
  foreign_key : Option String
deriving DecidableEq, Repr

/-- Table of the Schema Model: a name and its ordered columns (spec section 3). -/
structure SchemaTable where
  name : String
  columns : List SchemaColumn
deriving DecidableEq, Repr

/-- Modelled from the spec: the SchemaSnapshot supplied by the external
schema-introspection component.  It exposes a name-to-Table mapping
(schema.tables, a dict keyed by table name) and an optional set of custom
function names (schema.functions); table names are unique. -/
structure SchemaSnapshot where
  tables : List SchemaTable
  functions : List String
deriving DecidableEq, Repr

/-- Exact-key dict lookup schema.tables.get(name): the Python dict keyed by
table name, looked up case-sensitively. -/
def tget (schema : SchemaSnapshot) (name : String) : Option SchemaTable :=
  schema.tables.find? (fun t => t.name == name)

/-- Modelled from the spec: schema.has_table, the existence check of the
SchemaSnapshot, which is not among the analysed sources.  Spec section 3:
"Lookup capability: existence check by exact or case-normalized table name",
so the check accepts a name that matches a stored table exactly or after
case normalization. -/
def hasTable (schema : SchemaSnapshot) (name : String) : Bool :=
  schema.tables.any (fun t => plower t.name == plower name)

/-- Python table.split(".")[-1]: the last dot-separated segment. -/
def lastSeg (s : String) : String :=
  (psplitDot s).getLastD ""

/-- DIALECT_MAP of sql_parser.py: supported dialects mapping to sqlglot
dialect names; the empty string maps to None (auto-detect). -/
def DIALECT_MAP : List (String × Option String) :=
  [("postgres", some "postgres"),
   ("postgresql", some "postgres"),
   ("sqlite", some "sqlite"),
   ("duckdb", some "duckdb"),
   ("bigquery", some "bigquery"),
   ("snowflake", some "snowflake"),
   ("clickhouse", some "clickhouse"),
   ("mysql", some "mysql"),
   ("", none)]

/-- SQLParser._normalize_dialect: empty input gives None; otherwise the input
is lower-cased and stripped and looked up in DIALECT_MAP, the lookup default
being the lower-cased stripped string itself. -/
def normalizeDialect (dialect : String) : Option String :=
  if dialect = "" then none
  else
    let dl := pstrip (plower dialect)
    match DIALECT_MAP.find? (fun p => p.1 == dl) with
    | some p => p.2
    | none => some dl

/-- BIGQUERY_FUNCTIONS of sql_parser.py. -/
def BIGQUERY_FUNCTIONS : List String :=
  ["SAFE_DIVIDE", "SAFE_MULTIPLY", "SAFE_NEGATE", "SAFE_ADD", "SAFE_SUBTRACT",
   "DATE_DIFF", "DATE_ADD", "DATE_SUB", "DATE_TRUNC", "DATETIME_DIFF",
   "TIMESTAMP_DIFF", "TIMESTAMP_ADD", "TIMESTAMP_SUB", "TIMESTAMP_TRUNC",
   "PARSE_DATE", "PARSE_DATETIME", "PARSE_TIMESTAMP", "FORMAT_DATE",
   "ARRAY_AGG", "ARRAY_LENGTH", "ARRAY_TO_STRING", "GENERATE_ARRAY",
   "STRUCT", "UNNEST", "ARRAY", "CURRENT_DATE", "CURRENT_TIMESTAMP",
   "IFNULL", "NULLIF", "COALESCE", "IF", "CASE",
   "REGEXP_CONTAINS", "REGEXP_EXTRACT", "REGEXP_REPLACE",
   "JSON_EXTRACT", "JSON_EXTRACT_SCALAR", "JSON_QUERY", "JSON_VALUE",
   "ST_GEOGPOINT", "ST_DISTANCE", "ST_CONTAINS", "ST_INTERSECTS",
   "APPROX_COUNT_DISTINCT", "APPROX_QUANTILES", "APPROX_TOP_COUNT",
   "FARM_FINGERPRINT", "MD5", "SHA256", "SHA512",
   "NET.IP_FROM_STRING", "NET.SAFE_IP_FROM_STRING", "NET.IP_TO_STRING"]

/-- SNOWFLAKE_FUNCTIONS of sql_parser.py. -/
def SNOWFLAKE_FUNCTIONS : List String :=
  ["DATEADD", "DATEDIFF", "DATE_TRUNC", "DATE_PART", "DAYNAME", "MONTHNAME",
   "TIMEADD", "TIMEDIFF", "TIMESTAMPADD", "TIMESTAMPDIFF",
   "TO_DATE", "TO_TIMESTAMP", "TO_TIME", "TO_CHAR", "TO_VARCHAR",
   "TRY_TO_DATE", "TRY_TO_TIMESTAMP", "TRY_TO_NUMBER",
   "ARRAY_AGG", "ARRAY_SIZE", "ARRAY_SLICE", "ARRAY_CAT", "ARRAY_COMPACT",
   "OBJECT_CONSTRUCT", "OBJECT_KEYS", "OBJECT_AGG",
   "PARSE_JSON", "TRY_PARSE_JSON", "GET_PATH", "FLATTEN",
   "IFF", "IFNULL", "NVL", "NVL2", "NULLIF", "COALESCE", "ZEROIFNULL",
   "REGEXP_LIKE", "REGEXP_REPLACE", "REGEXP_SUBSTR", "REGEXP_COUNT",
   "SPLIT", "SPLIT_PART", "STRTOK", "STRTOK_TO_ARRAY",
   "HASH", "MD5", "SHA1", "SHA2",
   "LISTAGG", "WITHIN GROUP", "QUALIFY",
   "RATIO_TO_REPORT", "CUME_DIST", "PERCENT_RANK", "NTILE",
   "CURRENT_DATABASE", "CURRENT_SCHEMA", "CURRENT_WAREHOUSE",
   "SYSTEM$TYPEOF", "TYPEOF", "IS_INTEGER", "IS_DECIMAL"]

/-- COMMON_FUNCTIONS of sql_parser.py: common SQL functions across all
dialects. -/
def COMMON_FUNCTIONS : List String :=
  ["COUNT", "SUM", "AVG", "MIN", "MAX", "ABS", "ROUND", "CEIL", "FLOOR",
   "UPPER", "LOWER", "TRIM", "LTRIM", "RTRIM", "LENGTH", "SUBSTRING", "CONCAT",
   "REPLACE", "CAST", "CONVERT", "COALESCE", "NULLIF", "IFNULL",
   "NOW", "CURRENT_DATE", "CURRENT_TIME", "CURRENT_TIMESTAMP",
   "YEAR", "MONTH", "DAY", "HOUR", "MINUTE", "SECOND",
   "ROW_NUMBER", "RANK", "DENSE_RANK", "LAG", "LEAD", "FIRST_VALUE", "LAST_VALUE",
   "OVER", "PARTITION", "ORDER"]

/-- SQLParser.get_dialect_functions: the common set, extended with the
BigQuery or Snowflake set when the normalized dialect is one of those two.
Python builds a set by copy and update; only membership is consumed, so the
union is modelled as list append. -/
def getDialectFunctions (dialect : String) : List String :=
  match normalizeDialect dialect with
  | some "bigquery" => COMMON_FUNCTIONS ++ BIGQUERY_FUNCTIONS
  | some "snowflake" => COMMON_FUNCTIONS ++ SNOWFLAKE_FUNCTIONS
  | _ => COMMON_FUNCTIONS

/-- Table-reference node of the structural tree: sqlglot exp.Table with name
and optional db and catalog qualifiers (the empty string models an absent
qualifier, matching Python falsiness). -/
structure TableNode where
  name : String
  db : String
  catalog : String
deriving DecidableEq, Repr

/-- Column-reference node of the structural tree: sqlglot exp.Column with
name and optional table qualifier (empty string when absent). -/
structure ColumnNode where
  name : String
  table : String
deriving DecidableEq, Repr

/-- Function-call node of the structural tree: sqlglot exp.Func.  Extraction
uses func.name when it is truthy and otherwise the class name of the node. -/
structure FuncNode where
  className : String
  name : String
deriving DecidableEq, Repr

/-- Alias-binding node of the structural tree: sqlglot exp.Alias; thisName is
alias.this.name when present, else str(alias.this). -/
structure AliasNode where
  aliasName : String
  thisName : String
deriving DecidableEq, Repr

/-- Equality comparison inside a JOIN ON clause: each operand is some column
node when the operand is a Column-reference, none otherwise. -/
structure EqNode where
  left : Option ColumnNode
  right : Option ColumnNode
deriving DecidableEq, Repr

/-- Join node of the structural tree: thisTable is the joined table name when
join.this is a Table node (none otherwise); onPairs is the list of equality
comparisons found in the ON clause, none when there is no ON clause. -/
structure JoinNode where
  thisTable : Option String
  onPairs : Option (List EqNode)
deriving DecidableEq, Repr

/-- Structural tree, viewed through the only capability the engine uses:
find_all by node kind, yielding the nodes of each kind in traversal order
(spec section 3). -/
structure Ast where
  tableNodes : List TableNode
  columnNodes : List ColumnNode
  funcNodes : List FuncNode
  aliasNodes : List AliasNode
  joinNodes : List JoinNode
deriving DecidableEq, Repr

/-- The tree with no nodes at all. -/
def emptyAst : Ast := ⟨[], [], [], [], []⟩

/-- IdentifierSet of models.py: extracted tables, columns, functions and the
alias dict (modelled as an insertion-ordered association list). -/
structure IdentifierSet where
  tables : List String
  columns : List String
  functions : List String
  aliases : List (String × String)
deriving DecidableEq, Repr

/-- HallucinationReport of models.py; hallucination_score is a Python float,
modelled as an exact rational. -/
structure HallucinationReport where
  phantom_tables : List String
  phantom_columns : List String
  phantom_functions : List String
  total_hallucinations : Nat
  hallucination_score : ℚ
deriving DecidableEq, Repr

/-- ValidationResult of models.py. -/
structure ValidationResult where
  is_valid : Bool
  errors : List String
  warnings : List String
  hallucination_report : Option HallucinationReport
deriving DecidableEq, Repr

/-- Qualified table name built by _extract_all_identifiers: name, prefixed by
db then catalog when those qualifiers are present. -/
def tableFullName (t : TableNode) : String :=
  let n1 := if t.db ≠ "" then t.db ++ "." ++ t.name else t.name
  if t.catalog ≠ "" then t.catalog ++ "." ++ n1 else n1

/-- Qualified column name: "table.column" when a table qualifier is present,
else the bare column name.  The same formula appears in
_extract_all_identifiers and _extract_join_columns. -/
def colQualName (c : ColumnNode) : String :=
  if c.table ≠ "" then c.table ++ "." ++ c.name else c.name

/-- Function name extracted by _extract_all_identifiers: func.name uppercased
when truthy, else the uppercased class name of the node. -/
def funcExtractedName (f : FuncNode) : String :=
  if f.name ≠ "" then pupper f.name else pupper f.className

/-- Python dict assignment d[k] = v: overwrite in place when the key exists,
else append, preserving insertion order. -/
def dinsert (d : List (String × String)) (k v : String) : List (String × String) :=
  if d.any (fun p => p.1 == k) then
    d.map (fun p => if p.1 == k then (k, v) else p)
  else d ++ [(k, v)]

/-- The alias dict built by _extract_all_identifiers: aliases[alias] = name
of the aliased expression, last writer wins. -/
def extractAliases (l : List AliasNode) : List (String × String) :=
  l.foldl (fun d a => dinsert d a.aliasName a.thisName) []

/-- SQLParser._extract_all_identifiers.  Python deduplicates with
list(set(...)), whose order is unspecified and never relied upon (spec
section 4.3: order of emission does not matter); deduplication is modelled
keeping first occurrences. -/
def extractAllIdentifiers (ast : Ast) : IdentifierSet :=
  { tables := (ast.tableNodes.map tableFullName).eraseDups
    columns := (ast.columnNodes.map colQualName).eraseDups
    functions := (ast.funcNodes.map funcExtractedName).eraseDups
    aliases := extractAliases ast.aliasNodes }

/-- Exception classes of the external sqlglot library, as far as the
try/except logic of sql_parser.py distinguishes them: a
sqlglot.errors.ParseError, or any other exception (for example the
unknown-dialect ValueError raised while resolving the read dialect). -/
inductive PyExc where
  | parseError
  | otherError
deriving DecidableEq, Repr

/-- Model of the external sqlglot library: parseOne models
sqlglot.parse_one(sql, read=dialect) (none meaning no read argument),
returning a structural tree or raising; parseOneIgnore models
parse_one(sql, error_level=ErrorLevel.IGNORE), the error-tolerant mode that
ignores unrecoverable errors rather than propagating them (spec sections 4.2
and 7) and therefore always returns a tree. -/
structure SqlglotModel where
  parseOne : String → Option String → Except PyExc Ast
  parseOneIgnore : String → Ast

/-- The recursion of SQLParser._parse_with_fallback: walk the fallback
dialects in order, skipping the dialect already attempted; every exception
of a fallback attempt is swallowed (bare except); when the list is exhausted
return the error-tolerant parse. -/
def fallbackGo (M : SqlglotModel) (sql : String) (dialect : Option String) :
    List (Option String) → Ast
  | [] => M.parseOneIgnore sql
  | f :: rest =>
    if f = dialect then fallbackGo M sql dialect rest
    else
      match M.parseOne sql f with
      | .ok a => a
      | .error _ => fallbackGo M sql dialect rest

/-- SQLParser._parse_with_fallback with its ordered fallback list
["postgres", "bigquery", "snowflake", None]. -/
def parseWithFallback (M : SqlglotModel) (sql : String) (dialect : Option String) : Ast :=
  fallbackGo M sql dialect [some "postgres", some "bigquery", some "snowflake", none]

/-- SQLParser.parse as used throughout the engine (the detector and the join
verifier construct SQLParser() whose default dialect normalizes to None, so
the normalized dialect is _normalize_dialect(dialect)).  Only a
sqlglot.errors.ParseError from the primary attempt is caught and sent to the
fallback; any other exception propagates to the caller. -/
def parseE (M : SqlglotModel) (sql : String) (dialect : String) : Except PyExc Ast :=
  let nd := normalizeDialect dialect
  match M.parseOne sql nd with
  | .ok a => .ok a
  | .error .parseError => .ok (parseWithFallback M sql nd)
  | .error e => .error e

/-- SQLParser.extract_identifiers: parse, then extract. -/
def extractE (M : SqlglotModel) (sql : String) (dialect : String) :
    Except PyExc IdentifierSet :=
  (parseE M sql dialect).map extractAllIdentifiers

/-- HallucinationDetector._detect_phantom_tables: a referenced table is kept
as phantom when neither its last dot-separated segment nor its original
spelling passes schema.has_table. -/
def detectPhantomTables (tables : List String) (schema : SchemaSnapshot) : List String :=
  tables.filter (fun table => !hasTable schema (lastSeg table) && !hasTable schema table)

/-- The valid-column set built by _detect_phantom_columns: for every
referenced table found in the schema (by bare name, else by original
spelling), the lower-cased bare column names and lower-cased
"table.column" forms; plus "alias.column" forms for aliases resolving to
known tables. -/
def validColumns (tables : List String) (aliases : List (String × String))
    (schema : SchemaSnapshot) : List String :=
  (tables.flatMap (fun table =>
    let tname := lastSeg table
    match (tget schema tname).orElse (fun _ => tget schema table) with
    | some ti =>
      ti.columns.flatMap (fun c =>
        [plower c.name, plower tname ++ "." ++ plower c.name])
    | none => []))
  ++ aliases.flatMap (fun p =>
    match tget schema p.2 with
    | some ti => ti.columns.map (fun c => plower p.1 ++ "." ++ plower c.name)
    | none => [])

/-- The whole-schema scan of _detect_phantom_columns: an unqualified column
is accepted when any table of the schema has it (case-insensitively). -/
def foundAnywhere (schema : SchemaSnapshot) (colNameOnly : String) : Bool :=
  schema.tables.any (fun ti => ti.columns.any (fun c => plower c.name == colNameOnly))

/-- The per-column phantom test of _detect_phantom_columns: phantom when the
lower-cased spelling and the lower-cased bare name are both outside the
valid set, and, for an unqualified column, the whole-schema scan also
fails. -/
def isPhantomColumn (vc : List String) (schema : SchemaSnapshot) (col : String) : Bool :=
  let colLower := plower col
  let colNameOnly := plower (lastSeg col)
  if !vc.contains colLower && !vc.contains colNameOnly then
    if !pcontainsDot col then !foundAnywhere schema colNameOnly
    else true
  else false

/-- HallucinationDetector._detect_phantom_columns. -/
def detectPhantomColumns (columns : List String) (tables : List String)
    (aliases : List (String × String)) (schema : SchemaSnapshot) : List String :=
  columns.filter (isPhantomColumn (validColumns tables aliases schema) schema)

/-- The valid-function set of _detect_phantom_functions: the dialect set plus
the uppercased custom functions declared by the schema. -/
def validFunctionsFor (dialect : String) (schema : SchemaSnapshot) : List String :=
  getDialectFunctions dialect ++ schema.functions.map pupper

/-- HallucinationDetector._is_function_alias: the fixed AST-to-SQL alias map;
ANONYMOUS is unconditionally valid, the others are valid when their target
name is in the valid set. -/
def isFunctionAlias (func : String) (valid : List String) : Bool :=
  if func == "ANONYMOUS" then true
  else if func == "IF" then valid.contains "IFF"
  else if func == "SUBSTR" then valid.contains "SUBSTRING"
  else if func == "LEN" then valid.contains "LENGTH"
  else if func == "CHARINDEX" then valid.contains "POSITION"
  else false

/-- HallucinationDetector._detect_phantom_functions (the valid set is
computed once in the source; referring to validFunctionsFor twice denotes
the same value). -/
def detectPhantomFunctions (functions : List String) (dialect : String)
    (schema : SchemaSnapshot) : List String :=
  functions.filter (fun func =>
    !(validFunctionsFor dialect schema).contains (pupper func) &&
    !isFunctionAlias (pupper func) (validFunctionsFor dialect schema))

/-- HallucinationDetector.detect on an already-extracted identifier set:
the three phantom detections, total_hallucinations (HallucinationReport
post-init) and the score phantoms / max(1, identifiers). -/
def detectIds (ids : IdentifierSet) (schema : SchemaSnapshot) (dialect : String) :
    HallucinationReport :=
  let pt := detectPhantomTables ids.tables schema
  let pc := detectPhantomColumns ids.columns ids.tables ids.aliases schema
  let pf := detectPhantomFunctions ids.functions dialect schema
  { phantom_tables := pt
    phantom_columns := pc
    phantom_functions := pf
    total_hallucinations := pt.length + pc.length + pf.length
    hallucination_score :=
      ((pt.length + pc.length + pf.length : ℕ) : ℚ) /
        ((max 1 (ids.tables.length + ids.columns.length + ids.functions.length) : ℕ) : ℚ) }

/-- HallucinationDetector.detect: extract identifiers from the SQL (through
the parser), then detect. -/
def detectE (M : SqlglotModel) (sql : String) (schema : SchemaSnapshot)
    (dialect : String) : Except PyExc HallucinationReport :=
  (extractE M sql dialect).map (fun ids => detectIds ids schema dialect)

/-- Error-string format for a phantom table in HallucinationDetector.validate. -/
def msgTable (t : String) : String :=
  "Table " ++ squote ++ t ++ squote ++ " does not exist in schema"

/-- Error-string format for a phantom column in HallucinationDetector.validate. -/
def msgColumn (c : String) : String :=
  "Column " ++ squote ++ c ++ squote ++ " does not exist in any table"

/-- Warning-string format for a phantom function in HallucinationDetector.validate. -/
def msgFunction (f : String) (dialect : String) : String :=
  "Function " ++ squote ++ f ++ squote ++ " may not be valid for dialect " ++ squote ++ dialect ++ squote

/-- The conversion step of HallucinationDetector.validate: one error per
phantom table then one per phantom column, one warning per phantom function,
is_valid true iff there are no errors, and the report embedded. -/
def validateFromReport (report : HallucinationReport) (dialect : String) :
    ValidationResult :=
  let errors := report.phantom_tables.map msgTable ++ report.phantom_columns.map msgColumn
  let warnings := report.phantom_functions.map (fun f => msgFunction f dialect)
  { is_valid := errors.isEmpty
    errors := errors
    warnings := warnings
    hallucination_report := some report }

/-- HallucinationDetector.validate on an extracted identifier set. -/
def validateIds (ids : IdentifierSet) (schema : SchemaSnapshot) (dialect : String) :
    ValidationResult :=
  validateFromReport (detectIds ids schema dialect) dialect

/-- HallucinationDetector.validate. -/
def validateE (M : SqlglotModel) (sql : String) (schema : SchemaSnapshot)
    (dialect : String) : Except PyExc ValidationResult :=
  (detectE M sql schema dialect).map (fun rep => validateFromReport rep dialect)

/-- JoinPathVerifier._extract_join_columns: the ON-clause equality pairs both
of whose operands are Column-references, qualified as table.column when a
table is known. -/
def extractJoinColumns (eqs : List EqNode) : List (String × String) :=
  eqs.filterMap (fun e =>
    match e.left, e.right with
    | some l, some r => some (colQualName l, colQualName r)
    | _, _ => none)

/-- One direction of JoinPathVerifier._is_valid_join_path: some column of
tbl named col (case-insensitively) declares a foreign key whose table part
is target (case-insensitively). -/
def checkFK (tbl col target : String) (schema : SchemaSnapshot) : Bool :=
  match tget schema tbl with
  | none => false
  | some ti =>
    ti.columns.any (fun c =>
      plower c.name == plower col &&
      (match c.foreign_key with
       | some fk =>
         let parts := psplitDot fk
         decide (parts.length ≥ 2) && plower (parts.getD 0 "") == plower target
       | none => false))

/-- JoinPathVerifier._is_valid_join_path: vacuously true without table
qualifiers on both sides, else a foreign key in either direction. -/
def isValidJoinPath (leftCol rightCol : String) (schema : SchemaSnapshot) : Bool :=
  let lp := psplitDot leftCol
  let rp := psplitDot rightCol
  if lp.length < 2 || rp.length < 2 then true
  else
    checkFK (lp.getD 0 "") (lp.getD 1 "") (rp.getD 0 "") schema ||
    checkFK (rp.getD 0 "") (rp.getD 1 "") (lp.getD 0 "") schema

/-- JoinPathVerifier._verify_single_join: per-pair foreign-key validity is
computed but the invalid case falls through (pass), so no error is ever
produced. -/
def verifySingleJoin (j : JoinNode) (schema : SchemaSnapshot) : List String :=
  match j.thisTable with
  | none => []
  | some _ =>
    match j.onPairs with
    | none => []
    | some eqs =>
      let pairs := extractJoinColumns eqs
      let _ := pairs.map (fun p => isValidJoinPath p.1 p.2 schema)
      []

/-- JoinPathVerifier.verify on a structural tree: the per-join error lists
concatenated, an empty warning list, is_valid iff no errors, no embedded
report. -/
def verifyAst (ast : Ast) (schema : SchemaSnapshot) : ValidationResult :=
  let errors := (ast.joinNodes.map (fun j => verifySingleJoin j schema)).flatten
  { is_valid := errors.isEmpty
    errors := errors
    warnings := []
    hallucination_report := none }

/-- JoinPathVerifier.verify. -/
def verifyE (M : SqlglotModel) (sql : String) (schema : SchemaSnapshot)
    (dialect : String) : Except PyExc ValidationResult :=
  (parseE M sql dialect).map (fun a => verifyAst a schema)

/-- Modelled from the spec: the structural trees that the external parser
(sqlglot) produces for the concrete scenario queries of spec section 8.  A
star projection contributes no Column-reference node; unquoted identifiers
keep their spelling; the single-table single-column queries contain no
function, alias or join nodes. -/
def concreteTree (sql : String) : Ast :=
  if sql = "SELECT name, age FROM customers" then
    { emptyAst with
      tableNodes := [⟨"customers", "", ""⟩]
      columnNodes := [⟨"name", ""⟩, ⟨"age", ""⟩] }
  else if sql = "SELECT * FROM ghost_table" then
    { emptyAst with tableNodes := [⟨"ghost_table", "", ""⟩] }
  else if sql = "SELECT Total FROM Orders" then
    { emptyAst with
      tableNodes := [⟨"Orders", "", ""⟩]
      columnNodes := [⟨"Total", ""⟩] }
  else if sql = "select total from orders" then
    { emptyAst with
      tableNodes := [⟨"orders", "", ""⟩]
      columnNodes := [⟨"total", ""⟩] }
  else emptyAst

/-- A parser model in which every parse attempt succeeds with the concrete
scenario tree of the query. -/
def sqlglotConcrete : SqlglotModel :=
  { parseOne := fun sql _ => .ok (concreteTree sql)
    parseOneIgnore := concreteTree }

/-- Modelled from the spec: sqlglot raises an unknown-dialect error (a
ValueError, not a sqlglot.errors.ParseError) when the read dialect is not a
name it recognizes, here the unrecognized name "klingon"; recognized reads
succeed. -/
def sqlglotUnknownDialect : SqlglotModel :=
  { parseOne := fun _ d => if d = some "klingon" then .error .otherError else .ok emptyAst
    parseOneIgnore := fun _ => emptyAst }

/-- A parser model in which every dialected and auto-detect parse attempt
fails with a ParseError, so only the error-tolerant mode returns a tree. -/
def sqlglotAllFail : SqlglotModel :=
  { parseOne := fun _ _ => .error .parseError
    parseOneIgnore := fun _ => emptyAst }

/-- The scenario schema of spec section 8: one table customers with columns
id, name, email. -/
def custSchema : SchemaSnapshot :=
  { tables := [⟨"customers",
      [⟨"id", "INTEGER", none⟩, ⟨"name", "TEXT", none⟩, ⟨"email", "TEXT", none⟩]⟩]
    functions := [] }

/-- A schema storing its entries in lower case: table orders with column
total. -/
def ordersLower : SchemaSnapshot :=
  { tables := [⟨"orders", [⟨"total", "NUMERIC", none⟩]⟩], functions := [] }

/-- The same schema with its entries stored capitalized. -/
def ordersUpper : SchemaSnapshot :=
  { tables := [⟨"Orders", [⟨"Total", "NUMERIC", none⟩]⟩], functions := [] }

/-- The schema with no tables and no custom functions. -/
def emptySchema : SchemaSnapshot := { tables := [], functions := [] }

/-- The phantom-table condition exactly as claim C5 words it: neither the
bare name nor the original spelling exists in the Schema Model, with lookup
done case-sensitively as stored. -/
def phantomTableCaseSensitiveSpec (schema : SchemaSnapshot) (t : String) : Prop :=
  ¬ (∃ tb ∈ schema.tables, tb.name = lastSeg t) ∧ ¬ (∃ tb ∈ schema.tables, tb.name = t)

/-- Every single-join verification returns an empty error list: the
invalid-path case of the source falls through without recording anything. -/
theorem verifySingleJoin_eq_nil (j : JoinNode) (schema : SchemaSnapshot) :
    verifySingleJoin j schema = [] := by
  rcases j with ⟨tt, op⟩
  cases tt <;> cases op <;> rfl

/-- The join verifier result on any structural tree: valid, no errors, no
warnings, no embedded report. -/
theorem verifyAst_eq (ast : Ast) (schema : SchemaSnapshot) :
    verifyAst ast schema = ⟨true, [], [], none⟩ := by
  unfold verifyAst
  have h : (ast.joinNodes.map (fun j => verifySingleJoin j schema)).flatten = ([] : List String) := by
    induction ast.joinNodes with
    | nil => rfl
    | cons j js ih => simp [verifySingleJoin_eq_nil, ih]
  rw [h]
  rfl

/-- When every failure of the primary parse attempt is a ParseError, parse
recovers (through the fallback chain or the error-tolerant mode) and returns
a tree. -/
theorem parseE_ok_of_parseErrorOnly (M : SqlglotModel) (sql dialect : String)
    (h : ∀ e, M.parseOne sql (normalizeDialect dialect) = .error e → e = PyExc.parseError) :
    ∃ a, parseE M sql dialect = .ok a := by
  unfold parseE
  cases hp : M.parseOne sql (normalizeDialect dialect) with
  | ok a => exact ⟨a, by simp [hp]⟩
  | error e =>
    have he := h e hp
    subst he
    exact ⟨parseWithFallback M sql (normalizeDialect dialect), by simp [hp]⟩

/-- Membership in the phantom-function list, characterized. -/
theorem mem_detectPhantomFunctions (functions : List String) (dialect : String)
    (schema : SchemaSnapshot) (f : String) :
    f ∈ detectPhantomFunctions functions dialect schema ↔
      f ∈ functions ∧ (validFunctionsFor dialect schema).contains (pupper f) = false ∧
        isFunctionAlias (pupper f) (validFunctionsFor dialect schema) = false := by
  simp [detectPhantomFunctions, List.mem_filter]

/-- Claim C2 counterexample: the unrecognized nonempty dialect string
"oracle" is not a DIALECT_MAP key, yet normalization passes it through as
some "oracle" instead of yielding the absence of a canonical dialect. -/
theorem c2_counterexample :
    DIALECT_MAP.find? (fun p => p.1 == "oracle") = none ∧
    normalizeDialect "oracle" = some "oracle" := by
  decide

/-- Claim C2 (amended): normalization is case-insensitive and trimming;
an empty or whitespace-only string yields none (auto-detect); recognized
names map to their canonical identifier; an unrecognized nonempty string is
passed through as its lower-cased trimmed form rather than mapped to none. -/
theorem c2_normalize_amended :
    normalizeDialect "" = none
    ∧ (∀ s : String, s ≠ "" → pstrip (plower s) = "" → normalizeDialect s = none)
    ∧ normalizeDialect "  PostgreSQL  " = some "postgres"
    ∧ normalizeDialect "SNOWFLAKE" = some "snowflake"
    ∧ (∀ s : String, s ≠ "" →
        DIALECT_MAP.find? (fun p => p.1 == pstrip (plower s)) = none →
        normalizeDialect s = some (pstrip (plower s))) := by
  refine ⟨by decide, ?_, by decide, by decide, ?_⟩
  · intro s hne h
    unfold normalizeDialect
    rw [if_neg hne]
    simp only [h]
    decide
  · intro s hne hfind
    unfold normalizeDialect
    rw [if_neg hne]
    simp only [hfind]

/-- Claim C2 witness: a whitespace-only string normalizes to none and an
unrecognized name passes through. -/
theorem c2_normalize_witness :
    normalizeDialect "   " = none ∧ normalizeDialect "mssql" = some "mssql" :=
  ⟨c2_normalize_amended.2.1 "   " (by decide) (by decide),
   c2_normalize_amended.2.2.2.2 "mssql" (by decide) (by decide)⟩

/-- Claim C3: the hallucination score equals total phantoms divided by
max(1, total extracted identifiers), lies in [0,1], and is 0 when the total
identifier count is zero (no division by zero). -/
theorem c3_score_bounds :
    ∀ (ids : IdentifierSet) (schema : SchemaSnapshot) (dialect : String),
      (detectIds ids schema dialect).hallucination_score =
        (((detectIds ids schema dialect).phantom_tables.length +
          (detectIds ids schema dialect).phantom_columns.length +
          (detectIds ids schema dialect).phantom_functions.length : ℕ) : ℚ) /
          ((max 1 (ids.tables.length + ids.columns.length + ids.functions.length) : ℕ) : ℚ)
      ∧ 0 ≤ (detectIds ids schema dialect).hallucination_score
      ∧ (detectIds ids schema dialect).hallucination_score ≤ 1
      ∧ (ids.tables.length + ids.columns.length + ids.functions.length = 0 →
          (detectIds ids schema dialect).hallucination_score = 0) := by
  intro ids schema dialect
  have hle : (detectPhantomTables ids.tables schema).length +
      (detectPhantomColumns ids.columns ids.tables ids.aliases schema).length +
      (detectPhantomFunctions ids.functions dialect schema).length ≤
      ids.tables.length + ids.columns.length + ids.functions.length := by
    have h1 := List.length_filter_le
      (fun table => !hasTable schema (lastSeg table) && !hasTable schema table) ids.tables
    have h2 := List.length_filter_le
      (isPhantomColumn (validColumns ids.tables ids.aliases schema) schema) ids.columns
    have h3 := List.length_filter_le
      (fun func => !(validFunctionsFor dialect schema).contains (pupper func) &&
        !isFunctionAlias (pupper func) (validFunctionsFor dialect schema)) ids.functions
    simp only [detectPhantomTables, detectPhantomColumns, detectPhantomFunctions]
    omega
  have hs : (detectIds ids schema dialect).hallucination_score =
      (((detectPhantomTables ids.tables schema).length +
        (detectPhantomColumns ids.columns ids.tables ids.aliases schema).length +
        (detectPhantomFunctions ids.functions dialect schema).length : ℕ) : ℚ) /
        ((max 1 (ids.tables.length + ids.columns.length + ids.functions.length) : ℕ) : ℚ) := rfl
  have hden0 : (0 : ℚ) ≤
      ((max 1 (ids.tables.length + ids.columns.length + ids.functions.length) : ℕ) : ℚ) :=
    Nat.cast_nonneg _
  refine ⟨rfl, ?_, ?_, ?_⟩
  · rw [hs]
    exact div_nonneg (Nat.cast_nonneg _) hden0
  · rw [hs]
    apply div_le_one_of_le₀ _ hden0
    exact_mod_cast le_trans hle (Nat.le_max_right 1 _)
  · intro h0
    rw [hs]
    have hz : (detectPhantomTables ids.tables schema).length +
        (detectPhantomColumns ids.columns ids.tables ids.aliases schema).length +
        (detectPhantomFunctions ids.functions dialect schema).length = 0 := by omega
    rw [hz]
    simp

/-- Claim C3 witness: on an empty identifier set the score is 0. -/
theorem c3_score_witness :
    (detectIds ⟨[], [], [], []⟩ emptySchema "").hallucination_score = 0 :=
  (c3_score_bounds ⟨[], [], [], []⟩ emptySchema "").2.2.2 rfl

/-- Claim C4 counterexample: on the section-8 scenario (schema
customers(id, name, email), SQL selecting name and age from customers)
detect computes a hallucination score of 1/3, not the claimed 0.5: the
denominator counts the table identifier as well as the two columns. -/
theorem c4_counterexample :
    (detectE sqlglotConcrete "SELECT name, age FROM customers" custSchema "").map
        (fun r => r.hallucination_score) = Except.ok ((1 : ℚ)/3)
    ∧ ((1 : ℚ)/3 ≠ 1/2) := by
  constructor
  · rw [show (1 : ℚ)/3 = ((1 : ℕ) : ℚ) / ((3 : ℕ) : ℚ) from by norm_num]
    rfl
  · norm_num

/-- Claim C4 (amended): the scenario yields phantom_columns == ["age"],
phantom_tables == [], and hallucination_score == 1/3 (three extracted
identifiers: the table customers and the columns name and age; one
phantom). -/
theorem c4_scenario_amended :
    detectE sqlglotConcrete "SELECT name, age FROM customers" custSchema "" =
      Except.ok ⟨[], ["age"], [], 1, (1 : ℚ)/3⟩ := by
  rw [show (1 : ℚ)/3 = ((1 : ℕ) : ℚ) / ((3 : ℕ) : ℚ) from by norm_num]
  rfl

/-- Claim C5 counterexample: with the schema storing table "Orders" and a
query referencing "orders", the claimed case-sensitive characterization
calls the reference phantom, but detection (whose existence check accepts a
case-normalized match, spec section 3) does not report it. -/
theorem c5_counterexample :
    ¬ (("orders" ∈ detectPhantomTables ["orders"] ordersUpper) ↔
        phantomTableCaseSensitiveSpec ordersUpper "orders") := by
  intro h
  have hspec : phantomTableCaseSensitiveSpec ordersUpper "orders" :=
    ⟨by decide, by decide⟩
  exact absurd (h.mpr hspec) (by decide)

/-- Claim C5 (amended): a referenced table is reported phantom iff neither
its bare name (last dot-separated segment) nor its original possibly
qualified spelling exists in the Schema Model, with existence checked up to
case normalization (spec section 3), not case-sensitively. -/
theorem c5_phantom_table_iff :
    ∀ (tables : List String) (schema : SchemaSnapshot) (t : String),
      t ∈ detectPhantomTables tables schema ↔
        t ∈ tables
        ∧ ¬ (∃ tb ∈ schema.tables, plower tb.name = plower (lastSeg t))
        ∧ ¬ (∃ tb ∈ schema.tables, plower tb.name = plower t) := by
  intro tables schema t
  simp [detectPhantomTables, List.mem_filter, hasTable, List.any_eq_true]

/-- Claim C7: a function is phantom iff its upper-cased name is outside the
valid set (common + dialect-specific + schema-declared customs) and it is
not a recognized alias into that set; under snowflake the spelling IF is an
alias of IFF and is not reported. -/
theorem c7_phantom_function :
    (∀ (functions : List String) (dialect : String) (schema : SchemaSnapshot) (f : String),
      f ∈ detectPhantomFunctions functions dialect schema ↔
        f ∈ functions
        ∧ (validFunctionsFor dialect schema).contains (pupper f) = false
        ∧ isFunctionAlias (pupper f) (validFunctionsFor dialect schema) = false)
    ∧ detectPhantomFunctions ["IF"] "snowflake" emptySchema = []
    ∧ (validFunctionsFor "snowflake" emptySchema).contains "IF" = false
    ∧ (validFunctionsFor "snowflake" emptySchema).contains "IFF" = true := by
  refine ⟨mem_detectPhantomFunctions, by decide, by decide, by decide⟩

/-- Claim C1 counterexample: for the unrecognized dialect string "klingon",
normalization passes the name through to the parsing library, whose
unknown-dialect error is not a ParseError, is not caught, and propagates out
of parse and detect instead of being recovered. -/
theorem c1_counterexample :
    parseE sqlglotUnknownDialect "SELECT 1" "klingon" = Except.error PyExc.otherError
    ∧ detectE sqlglotUnknownDialect "SELECT 1" emptySchema "klingon" =
        Except.error PyExc.otherError :=
  ⟨rfl, rfl⟩

/-- Claim C1 (amended): whenever the primary parse attempt fails only with a
ParseError (in particular for empty or recognized dialect strings under a
parser raising only parse errors), every public operation returns normally;
moreover the fallback retries the ordered list postgres, bigquery, snowflake,
auto-detect, skipping the dialect already attempted, and returns the
error-tolerant parse when every attempt fails. -/
theorem c1_never_raises_amended :
    (∀ (M : SqlglotModel) (sql : String) (schema : SchemaSnapshot) (dialect : String),
      (∀ e, M.parseOne sql (normalizeDialect dialect) = .error e → e = PyExc.parseError) →
      (∃ a, parseE M sql dialect = Except.ok a)
      ∧ (∃ ids, extractE M sql dialect = Except.ok ids)
      ∧ (∃ rep, detectE M sql schema dialect = Except.ok rep)
      ∧ (∃ res, validateE M sql schema dialect = Except.ok res)
      ∧ (∃ res, verifyE M sql schema dialect = Except.ok res))
    ∧ (∀ (M : SqlglotModel) (sql : String) (a : Ast),
        M.parseOne sql none = Except.error PyExc.parseError →
        M.parseOne sql (some "postgres") = Except.error PyExc.parseError →
        M.parseOne sql (some "bigquery") = Except.ok a →
        parseE M sql "" = Except.ok a)
    ∧ (∀ (M : SqlglotModel) (sql : String),
        (∀ f, M.parseOne sql f = Except.error PyExc.parseError) →
        parseE M sql "postgres" = Except.ok (M.parseOneIgnore sql)) := by
  refine ⟨?_, ?_, ?_⟩
  · intro M sql schema dialect h
    obtain ⟨a, ha⟩ := parseE_ok_of_parseErrorOnly M sql dialect h
    exact ⟨⟨a, ha⟩,
      ⟨extractAllIdentifiers a, by simp [extractE, ha, Except.map]⟩,
      ⟨detectIds (extractAllIdentifiers a) schema dialect, by simp [detectE, extractE, ha, Except.map]⟩,
      ⟨validateFromReport (detectIds (extractAllIdentifiers a) schema dialect) dialect,
        by simp [validateE, detectE, extractE, ha, Except.map]⟩,
      ⟨verifyAst a schema, by simp [verifyE, ha, Except.map]⟩⟩
  · intro M sql a h1 h2 h3
    have hnd : normalizeDialect "" = none := rfl
    simp [parseE, parseWithFallback, fallbackGo, hnd, h1, h2, h3]
  · intro M sql h
    have hnd : normalizeDialect "postgres" = some "postgres" := rfl
    simp [parseE, parseWithFallback, fallbackGo, hnd, h]

/-- Claim C1 witness: a model that always succeeds lets validate return, and
a model in which all dialected attempts fail with ParseError makes parse
return the error-tolerant tree. -/
theorem c1_witness :
    (∃ res, validateE sqlglotConcrete "SELECT 1" custSchema "" = Except.ok res)
    ∧ parseE sqlglotAllFail "x" "postgres" = Except.ok emptyAst :=
  ⟨(c1_never_raises_amended.1 sqlglotConcrete "SELECT 1" custSchema ""
      (fun _ h => nomatch h)).2.2.2.1,
   c1_never_raises_amended.2.2 sqlglotAllFail "x" (fun _ => rfl)⟩

/-- Claim C6: validate turns each phantom table and each phantom column into
exactly one error, each phantom function into exactly one warning, is_valid
is true iff there are no errors; and the ghost_table scenario yields an
invalid result whose single error string contains ghost_table. -/
theorem c6_validate :
    (∀ (ids : IdentifierSet) (schema : SchemaSnapshot) (dialect : String),
      (validateIds ids schema dialect).errors.length =
        (detectIds ids schema dialect).phantom_tables.length +
          (detectIds ids schema dialect).phantom_columns.length
      ∧ (validateIds ids schema dialect).warnings.length =
          (detectIds ids schema dialect).phantom_functions.length
      ∧ ((validateIds ids schema dialect).is_valid = true ↔
          (validateIds ids schema dialect).errors = []))
    ∧ validateE sqlglotConcrete "SELECT * FROM ghost_table" custSchema "" =
        Except.ok ⟨false, [msgTable "ghost_table"], [],
          some ⟨["ghost_table"], [], [], 1, 1⟩⟩
    ∧ msgTable "ghost_table" =
        "Table " ++ squote ++ "ghost_table" ++ squote ++ " does not exist in schema" := by
  refine ⟨?_, ?_, rfl⟩
  · intro ids schema dialect
    refine ⟨?_, ?_, ?_⟩
    · simp [validateIds, validateFromReport]
    · simp [validateIds, validateFromReport]
    · simp [validateIds, validateFromReport, List.isEmpty_iff]
  · rw [show (1 : ℚ) = ((1 : ℕ) : ℚ) / ((1 : ℕ) : ℚ) from by norm_num]
    rfl

/-- Claim C8 counterexample: for the unrecognized dialect string "klingon"
the verifier propagates the parsing library's non-ParseError instead of
returning a ValidationResult. -/
theorem c8_counterexample :
    verifyE sqlglotUnknownDialect "SELECT a FROM t JOIN u ON t.x = u.y" emptySchema
      "klingon" = Except.error PyExc.otherError := rfl

/-- Claim C8 (amended): whenever the primary parse attempt fails only with a
ParseError, verify returns a ValidationResult with empty errors, empty
warnings and is_valid true: per-pair foreign-key validity is computed but a
missing foreign-key path is never surfaced. -/
theorem c8_join_tolerance_amended :
    ∀ (M : SqlglotModel) (sql : String) (schema : SchemaSnapshot) (dialect : String),
      (∀ e, M.parseOne sql (normalizeDialect dialect) = .error e → e = PyExc.parseError) →
      verifyE M sql schema dialect = Except.ok ⟨true, [], [], none⟩ := by
  intro M sql schema dialect h
  obtain ⟨a, ha⟩ := parseE_ok_of_parseErrorOnly M sql dialect h
  simp [verifyE, ha, verifyAst_eq, Except.map]

/-- Claim C8 witness: on a join query under an always-succeeding parser the
verifier returns the all-clear result. -/
theorem c8_witness :
    verifyE sqlglotConcrete "SELECT a FROM t JOIN u ON t.x = u.y" emptySchema "" =
      Except.ok ⟨true, [], [], none⟩ :=
  c8_join_tolerance_amended sqlglotConcrete "SELECT a FROM t JOIN u ON t.x = u.y"
    emptySchema "" (fun _ h => nomatch h)

/-- Claim C9: with schema entries stored in one casing (lower-case, and then
capitalized), validating SELECT Total FROM Orders and select total from
orders produce identical validation outcomes, both fully valid. -/
theorem c9_case_insensitive :
    validateE sqlglotConcrete "SELECT Total FROM Orders" ordersLower "" =
      validateE sqlglotConcrete "select total from orders" ordersLower ""
    ∧ validateE sqlglotConcrete "SELECT Total FROM Orders" ordersUpper "" =
        validateE sqlglotConcrete "select total from orders" ordersUpper ""
    ∧ validateE sqlglotConcrete "SELECT Total FROM Orders" ordersLower "" =
        Except.ok ⟨true, [], [], some ⟨[], [], [], 0, 0⟩⟩ := by
  refine ⟨rfl, rfl, ?_⟩
  rw [show (0 : ℚ) = ((0 : ℕ) : ℚ) / ((2 : ℕ) : ℚ) from by norm_num]
  rfl

/-- Claim C10: for every dialect whose normalized form is neither bigquery
nor snowflake (in particular postgres, mysql, sqlite, duckdb, clickhouse)
the valid-function set is exactly the common set, and a function is phantom
iff it is outside the common set extended with schema customs and not an
alias into it. -/
theorem c10_common_functions :
    (∀ dialect : String, normalizeDialect dialect ≠ some "bigquery" →
      normalizeDialect dialect ≠ some "snowflake" →
      getDialectFunctions dialect = COMMON_FUNCTIONS
      ∧ ∀ (functions : List String) (schema : SchemaSnapshot) (f : String),
          f ∈ detectPhantomFunctions functions dialect schema ↔
            f ∈ functions
            ∧ (COMMON_FUNCTIONS ++ schema.functions.map pupper).contains (pupper f) = false
            ∧ isFunctionAlias (pupper f)
                (COMMON_FUNCTIONS ++ schema.functions.map pupper) = false)
    ∧ getDialectFunctions "postgres" = COMMON_FUNCTIONS
    ∧ getDialectFunctions "mysql" = COMMON_FUNCTIONS
    ∧ getDialectFunctions "sqlite" = COMMON_FUNCTIONS
    ∧ getDialectFunctions "duckdb" = COMMON_FUNCTIONS
    ∧ getDialectFunctions "clickhouse" = COMMON_FUNCTIONS := by
  refine ⟨?_, rfl, rfl, rfl, rfl, rfl⟩
  intro dialect hb hs
  have hcom : getDialectFunctions dialect = COMMON_FUNCTIONS := by
    unfold getDialectFunctions
    split
    · rename_i heq; exact absurd heq hb
    · rename_i heq; exact absurd heq hs
    · rfl
  have hv : ∀ schema : SchemaSnapshot, validFunctionsFor dialect schema =
      COMMON_FUNCTIONS ++ schema.functions.map pupper := by
    intro schema
    unfold validFunctionsFor
    rw [hcom]
  refine ⟨hcom, ?_⟩
  intro functions schema f
  rw [← hv schema]
  exact mem_detectPhantomFunctions functions dialect schema f

/-- Claim C10 witness: under postgres the dialect set is the common set and
a snowflake-only function is characterized by the common-set test. -/
theorem c10_witness :
    getDialectFunctions "postgres" = COMMON_FUNCTIONS
    ∧ ("LISTAGG" ∈ detectPhantomFunctions ["LISTAGG"] "postgres" emptySchema ↔
        ("LISTAGG" ∈ (["LISTAGG"] : List String)
          ∧ (COMMON_FUNCTIONS ++ emptySchema.functions.map pupper).contains
              (pupper "LISTAGG") = false
          ∧ isFunctionAlias (pupper "LISTAGG")
              (COMMON_FUNCTIONS ++ emptySchema.functions.map pupper) = false)) :=
  ⟨(c10_common_functions.1 "postgres" (by decide) (by decide)).1,
   (c10_common_functions.1 "postgres" (by decide) (by decide)).2 ["LISTAGG"]
     emptySchema "LISTAGG"⟩
